import Mathlib

/-!
Verification of the CANMIO channel-behavior engine (spikyian/CANMIOfirmware).

Shallow embedding of the C sources:
  canmio.h, mioEvents.h, mioEvents.c, inputs.c, servo.c, main.c.

Conventions used throughout:
* C `unsigned char` / `BYTE` values are modelled as `Nat` with explicit
  `% 256` reductions wherever the C code can overflow or wrap.
* C `int` arithmetic is modelled as `Int`, with `Int.tdiv` / `Int.tmod`
  (C division truncates toward zero, remainder has the dividend's sign)
  and conversion back to `unsigned char` as `Int.emod · 256 |>.toNat`.
* The global parallel per-channel C arrays are modelled as total functions
  `Nat → _`; the C program only touches indexes 0..15 when it is healthy,
  but (as the theorems below show) some code paths index far outside
  that range, which the total-function model represents as reads/writes
  at the out-of-range index.
* Hardware register writes (TRIS/TMR/PR/T?CON) are not part of any claim
  below except through the values computed for them, which are modelled.
-/

set_option maxRecDepth 8000

namespace Canmio

/-! ## Constants (canmio.h, mioEvents.h) -/

/-- canmio.h: `#define NUM_IO 16` (number of I/O channels). -/
def NUM_CHANNELS : Nat := 16

/-- mioEvents.h: `PRODUCER_ACTIONS_PER_IO` = 4. -/
def PRODUCER_ACTIONS_PER_CHANNEL : Nat := 4

/-- mioEvents.h: `CONSUMER_ACTIONS_PER_IO` = 4. -/
def CONSUMER_ACTIONS_PER_CHANNEL : Nat := 4

/-- mioEvents.h: `NUM_PRODUCER_ACTIONS = NUM_IO * PRODUCER_ACTIONS_PER_IO` = 64. -/
def NUM_PRODUCER_ACTIONS : Nat := NUM_CHANNELS * PRODUCER_ACTIONS_PER_CHANNEL

/-- mioEvents.h: `NUM_CONSUMER_ACTIONS = NUM_IO * CONSUMER_ACTIONS_PER_IO` = 64. -/
def NUM_CONSUMER_ACTIONS : Nat := NUM_CHANNELS * CONSUMER_ACTIONS_PER_CHANNEL

/-- mioEvents.h: `NUM_ACTIONS = NUM_CONSUMER_ACTIONS + NUM_PRODUCER_ACTIONS` = 128. -/
def NUM_ACTIONS : Nat := NUM_CONSUMER_ACTIONS + NUM_PRODUCER_ACTIONS

/-- mioEvents.h: `ACTION_IO_CONSUMER_1` = 0 (per-channel sub-action indexes). -/
def ACTION_CONSUMER_1 : Nat := 0

/-- mioEvents.h: `ACTION_IO_CONSUMER_2` = 1. -/
def ACTION_CONSUMER_2 : Nat := 1

/-- mioEvents.h: `ACTION_IO_CONSUMER_3` = 2. -/
def ACTION_CONSUMER_3 : Nat := 2

/-- mioEvents.h: `ACTION_IO_CONSUMER_4` = 3. -/
def ACTION_CONSUMER_4 : Nat := 3

/-- mioEvents.h: `ACTION_IO_PRODUCER_BASE(i) = PRODUCER_ACTIONS_PER_IO*(i)`. -/
def actionProducerBase (i : Nat) : Nat := PRODUCER_ACTIONS_PER_CHANNEL * i

/-- mioEvents.h: `ACTION_IO_CONSUMER_BASE(i) = NUM_PRODUCER_ACTIONS + CONSUMER_ACTIONS_PER_IO*(i)`. -/
def actionConsumerBase (i : Nat) : Nat := NUM_PRODUCER_ACTIONS + CONSUMER_ACTIONS_PER_CHANNEL * i

/-- mioEvents.h: `ACTION_IO_PRODUCER_INPUT_ON2OFF(i)` (producer base + 0). -/
def actionProducerInputOn2Off (i : Nat) : Nat := actionProducerBase i + 0

/-- mioEvents.h: `ACTION_IO_PRODUCER_INPUT_OFF2ON(i)` (producer base + 1). -/
def actionProducerInputOff2On (i : Nat) : Nat := actionProducerBase i + 1

/-- mioEvents.h: `ACTION_IO_PRODUCER_SERVO_OFF(i)` (producer base + 0). -/
def actionProducerServoOff (i : Nat) : Nat := actionProducerBase i + 0

/-- mioEvents.h: `ACTION_IO_PRODUCER_SERVO_MID(i)` (producer base + 1). -/
def actionProducerServoMid (i : Nat) : Nat := actionProducerBase i + 1

/-- mioEvents.h: `ACTION_IO_PRODUCER_SERVO_ON(i)` (producer base + 2). -/
def actionProducerServoOn (i : Nat) : Nat := actionProducerBase i + 2

/-- mioEvents.h: `ACTION_IO_CONSUMER_SERVO_OFF(i) = NUM_PRODUCER_ACTIONS + ACTION_IO_CONSUMER_BASE(i) + 0`.
Note the macro adds `NUM_PRODUCER_ACTIONS` on top of `ACTION_IO_CONSUMER_BASE`,
which itself already contains `NUM_PRODUCER_ACTIONS`. -/
def actionConsumerServoOff (i : Nat) : Nat := NUM_PRODUCER_ACTIONS + actionConsumerBase i + 0

/-- mioEvents.h: `ACTION_IO_CONSUMER_SERVO_ON(i)` (doubly offset base + 1). -/
def actionConsumerServoOn (i : Nat) : Nat := NUM_PRODUCER_ACTIONS + actionConsumerBase i + 1

/-- mioEvents.h: `ACTION_IO_CONSUMER_OUTPUT_ON(i)` (doubly offset base + 0). -/
def actionConsumerOutputOn (i : Nat) : Nat := NUM_PRODUCER_ACTIONS + actionConsumerBase i + 0

/-- mioEvents.h: `ACTION_IO_CONSUMER_OUTPUT_FLASH(i)` (doubly offset base + 1). -/
def actionConsumerOutputFlash (i : Nat) : Nat := NUM_PRODUCER_ACTIONS + actionConsumerBase i + 1

/-- mioEvents.h: `ACTION_IO_CONSUMER_OUTPUT_OFF(i)` (doubly offset base + 2). -/
def actionConsumerOutputOff (i : Nat) : Nat := NUM_PRODUCER_ACTIONS + actionConsumerBase i + 2

/-- mioEvents.h: `ACTION_IO_CONSUMER_BOUNCE_OFF(i)` (doubly offset base + 0). -/
def actionConsumerBounceOff (i : Nat) : Nat := NUM_PRODUCER_ACTIONS + actionConsumerBase i + 0

/-- mioEvents.h: `ACTION_IO_CONSUMER_BOUNCE_ON(i)` (doubly offset base + 1). -/
def actionConsumerBounceOn (i : Nat) : Nat := NUM_PRODUCER_ACTIONS + actionConsumerBase i + 1

/-- mioEvents.h: `ACTION_IO_CONSUMER_MULTI_TO1(i)` (doubly offset base + 0). -/
def actionConsumerMultiTo1 (i : Nat) : Nat := NUM_PRODUCER_ACTIONS + actionConsumerBase i + 0

/-- mioEvents.h: `ACTION_IO_CONSUMER_MULTI_TO2(i)` (doubly offset base + 1). -/
def actionConsumerMultiTo2 (i : Nat) : Nat := NUM_PRODUCER_ACTIONS + actionConsumerBase i + 1

/-- mioEvents.h: `ACTION_IO_CONSUMER_MULTI_TO3(i)` (doubly offset base + 2). -/
def actionConsumerMultiTo3 (i : Nat) : Nat := NUM_PRODUCER_ACTIONS + actionConsumerBase i + 2

/-- mioEvents.h: `ACTION_IO_CONSUMER_MULTI_TO4(i)` (doubly offset base + 3). -/
def actionConsumerMultiTo4 (i : Nat) : Nat := NUM_PRODUCER_ACTIONS + actionConsumerBase i + 3

/-- The five channel behavior types (`TYPE_INPUT` .. `TYPE_MULTI`, mioNv.h).
They are used as five distinct enumeration constants throughout the sources
(e.g. the five distinct switch cases in `defaultEvents`, mioEvents.c). -/
inductive ChannelType
  | input
  | output
  | servo
  | bounce
  | multi
deriving DecidableEq, Repr

/-- "Motion type" in the wording of the specification (section 4.3):
Servo, Bounce or Multi. This definition formalises spec vocabulary and is
used only to state claims, never as part of the embedded program. -/
def isMotionType : ChannelType → Bool
  | ChannelType.servo => true
  | ChannelType.bounce => true
  | ChannelType.multi => true
  | _ => false

/-! ## Byte and C-int arithmetic helpers -/

/-- Byte (unsigned char) addition, as in `currentPos[io] += speed[io]`. -/
def byteAdd (a b : Nat) : Nat := (a + b) % 256

/-- Byte (unsigned char) subtraction, as in `currentPos[io] -= speed[io]`. -/
def bSub (a b : Nat) : Nat := (a % 256 + 256 - b % 256) % 256

/-- Conversion of a C `int` value to `unsigned char` (reduce mod 256). -/
def byteOfInt (x : Int) : Nat := (Int.emod x 256).toNat

/-! ## Action dispatcher (mioEvents.c `processEvent`) -/

/-- mioEvents.h: `CONSUMER_IO(a) = ((a)-NUM_PRODUCER_ACTIONS)/CONSUMER_ACTIONS_PER_IO`.
The macro argument is an `unsigned char` promoted to `int`, the subtraction and
division are `int` operations (truncating toward zero), and the result is
stored back into an `unsigned char` variable. -/
def consumerIoOf (a : Nat) : Nat :=
  byteOfInt (Int.tdiv ((a : Int) - (NUM_PRODUCER_ACTIONS : Int)) (CONSUMER_ACTIONS_PER_CHANNEL : Int))

/-- mioEvents.h: `CONSUMER_ACTION(a) = ((a)-NUM_PRODUCER_ACTIONS)%CONSUMER_ACTIONS_PER_IO`,
with C `int` remainder semantics, stored back into an `unsigned char`. -/
def consumerActionOf (a : Nat) : Nat :=
  byteOfInt (Int.tmod ((a : Int) - (NUM_PRODUCER_ACTIONS : Int)) (CONSUMER_ACTIONS_PER_CHANNEL : Int))

/-- mioEvents.c `processEvent(BYTE action, BYTE* msg)`:
  if (action < NUM_PRODUCER_ACTIONS) return;
  action -= NUM_PRODUCER_ACTIONS;
  io = CONSUMER_IO(action); action = CONSUMER_ACTION(action);
  type = NV->io[io].type; setOutput(io, action, type);
The model returns `none` for the early return, and otherwise the argument
triple `(io, action, type)` passed to `setOutput` (outputs.c, external to the
sources in scope). `typeOf` models the `NV->io[_].type` read; the decoded
index can lie far outside 0..15, in which case the C code reads whatever
memory follows the configuration table — the model reads `typeOf` there. -/
def processEvent (typeOf : Nat → ChannelType) (action : Nat) : Option (Nat × Nat × ChannelType) :=
  if action < NUM_PRODUCER_ACTIONS then none
  else
    let a := (action - NUM_PRODUCER_ACTIONS) % 256
    let decodedCh := consumerIoOf a
    let sub := consumerActionOf a
    some (decodedCh, sub, typeOf decodedCh)

/-- For byte actions at or above `2*NUM_PRODUCER_ACTIONS` = 128 the double
subtraction in `processEvent` + `CONSUMER_IO`/`CONSUMER_ACTION` reduces to
plain division/remainder by 4 of `action - 128`. -/
theorem consumerDecode_high :
    ∀ a : Nat, a < 256 → 128 ≤ a →
      consumerIoOf ((a - 64) % 256) = (a - 128) / 4 ∧
      consumerActionOf ((a - 64) % 256) = (a - 128) % 4 := by
  decide

/-- Routing of a doubly-offset macro identifier `128 + 4*i + k`. -/
theorem processEvent_macroId (typeOf : Nat → ChannelType) (i k : Nat)
    (hi : i < 16) (hk : k < 4) :
    processEvent typeOf (128 + 4 * i + k) = some (i, k, typeOf i) := by
  have hlt : 128 + 4 * i + k < 256 := by omega
  have hge : 128 ≤ 128 + 4 * i + k := by omega
  have hdec := consumerDecode_high (128 + 4 * i + k) hlt hge
  have hch : (128 + 4 * i + k - 128) / 4 = i := by omega
  have hsub : (128 + 4 * i + k - 128) % 4 = k := by omega
  have hnotlt : ¬ (128 + 4 * i + k < NUM_PRODUCER_ACTIONS) := by
    simp only [NUM_PRODUCER_ACTIONS, NUM_CHANNELS, PRODUCER_ACTIONS_PER_CHANNEL]
    omega
  simp only [processEvent, hnotlt, if_false]
  have h64 : (128 + 4 * i + k - NUM_PRODUCER_ACTIONS) % 256 = (128 + 4 * i + k - 64) % 256 := by
    simp only [NUM_PRODUCER_ACTIONS, NUM_CHANNELS, PRODUCER_ACTIONS_PER_CHANNEL]
  rw [h64, hdec.1, hdec.2, hch, hsub]

/-- Claim C3 counterexample. The claim states that `processEvent` is a no-op
outside the consumer range [NUM_PRODUCER_ACTIONS, NUM_PRODUCER_ACTIONS +
NUM_CONSUMER_ACTIONS) = [64, 128) and that inside it the channel is decoded
as (actionId - 64) div 4. Both parts fail on the code: actionId 128 lies
outside that range yet is routed to `setOutput` (a side effect), and
actionId 64 lies inside that range yet is decoded to channel 240 (the double
subtraction of `NUM_PRODUCER_ACTIONS` makes the intermediate `int` negative),
not to channel (64-64)/4 = 0. -/
theorem C3_dispatch_range_cex :
    processEvent (fun _ => ChannelType.output) 128 ≠ none ∧
    processEvent (fun _ => ChannelType.output) 128 = some (0, 0, ChannelType.output) ∧
    processEvent (fun _ => ChannelType.output) 64 = some (240, 0, ChannelType.output) := by
  decide

/-- Claim C3 (amended): `processEvent(actionId)` is a no-op exactly when
`actionId < NUM_PRODUCER_ACTIONS` (= 64); every byte action at or above
`2*NUM_PRODUCER_ACTIONS` (= 128) is decoded with channel
`(actionId - 128) div 4` and sub-action `(actionId - 128) mod 4` and routed to
`setOutput` together with that channel's current type; byte actions in
[64, 128) are not rejected either (they are routed with a mis-decoded,
generally out-of-range channel index). -/
theorem C3_dispatch_decode (typeOf : Nat → ChannelType) (action : Nat) (hb : action < 256) :
    (processEvent typeOf action = none ↔ action < 64) ∧
    (128 ≤ action →
      processEvent typeOf action =
        some ((action - 128) / 4, (action - 128) % 4, typeOf ((action - 128) / 4))) ∧
    (64 ≤ action → (processEvent typeOf action).isSome) := by
  have h64eq : NUM_PRODUCER_ACTIONS = 64 := by
    simp only [NUM_PRODUCER_ACTIONS, NUM_CHANNELS, PRODUCER_ACTIONS_PER_CHANNEL]
  refine ⟨?_, ?_, ?_⟩
  · constructor
    · intro h
      by_contra hge
      have : ¬ action < NUM_PRODUCER_ACTIONS := by omega
      simp [processEvent, this] at h
    · intro h
      have : action < NUM_PRODUCER_ACTIONS := by omega
      simp [processEvent, this]
  · intro hge
    have hn : ¬ action < 64 := by omega
    have hdec := consumerDecode_high action hb hge
    simp only [processEvent, h64eq, hn, if_false]
    rw [hdec.1, hdec.2]
  · intro hge
    have hnotlt : ¬ action < NUM_PRODUCER_ACTIONS := by omega
    simp [processEvent, hnotlt]

/-- Witness for C3_dispatch_decode at actionId 130 (decodes to channel 0,
sub-action 2). -/
theorem C3_dispatch_decode_witness :
    (processEvent (fun _ => ChannelType.servo) 130 = none ↔ 130 < 64) ∧
    (128 ≤ 130 →
      processEvent (fun _ => ChannelType.servo) 130 =
        some ((130 - 128) / 4, (130 - 128) % 4,
          (fun _ => ChannelType.servo) ((130 - 128) / 4))) ∧
    (64 ≤ 130 → (processEvent (fun _ => ChannelType.servo) 130).isSome) :=
  C3_dispatch_decode (fun _ => ChannelType.servo) 130 (by decide)

/-- Claim C10: each consumer helper macro of mioEvents.h builds the identifier
`2*NUM_PRODUCER_ACTIONS + 4*i + k`; feeding it into `processEvent` routes to
exactly channel `i` with sub-action `k` and channel `i`'s configured type:
the extra `NUM_PRODUCER_ACTIONS` added by the macros is cancelled by the extra
subtraction inside `CONSUMER_IO`/`CONSUMER_ACTION`, even though the identifier
is at or above `NUM_ACTIONS` = 128. -/
theorem C10_macro_roundtrip (typeOf : Nat → ChannelType) (i : Nat) (hi : i < 16) :
    processEvent typeOf (actionConsumerServoOff i) = some (i, 0, typeOf i) ∧
    processEvent typeOf (actionConsumerServoOn i) = some (i, 1, typeOf i) ∧
    processEvent typeOf (actionConsumerOutputOn i) = some (i, 0, typeOf i) ∧
    processEvent typeOf (actionConsumerOutputFlash i) = some (i, 1, typeOf i) ∧
    processEvent typeOf (actionConsumerOutputOff i) = some (i, 2, typeOf i) ∧
    processEvent typeOf (actionConsumerBounceOff i) = some (i, 0, typeOf i) ∧
    processEvent typeOf (actionConsumerBounceOn i) = some (i, 1, typeOf i) ∧
    processEvent typeOf (actionConsumerMultiTo1 i) = some (i, 0, typeOf i) ∧
    processEvent typeOf (actionConsumerMultiTo2 i) = some (i, 1, typeOf i) ∧
    processEvent typeOf (actionConsumerMultiTo3 i) = some (i, 2, typeOf i) ∧
    processEvent typeOf (actionConsumerMultiTo4 i) = some (i, 3, typeOf i) ∧
    NUM_ACTIONS ≤ actionConsumerServoOff i := by
  have hbase : ∀ k : Nat, NUM_PRODUCER_ACTIONS + actionConsumerBase i + k = 128 + 4 * i + k := by
    intro k
    simp only [actionConsumerBase, NUM_PRODUCER_ACTIONS, NUM_CHANNELS,
      PRODUCER_ACTIONS_PER_CHANNEL, CONSUMER_ACTIONS_PER_CHANNEL]
    omega
  refine ⟨?_, ?_, ?_, ?_, ?_, ?_, ?_, ?_, ?_, ?_, ?_, ?_⟩ <;>
    first
      | (simp only [actionConsumerServoOff, actionConsumerServoOn, actionConsumerOutputOn,
          actionConsumerOutputFlash, actionConsumerOutputOff, actionConsumerBounceOff,
          actionConsumerBounceOn, actionConsumerMultiTo1, actionConsumerMultiTo2,
          actionConsumerMultiTo3, actionConsumerMultiTo4, hbase]
         exact processEvent_macroId typeOf i _ hi (by omega))
      | (simp only [actionConsumerServoOff, actionConsumerBase, NUM_ACTIONS,
          NUM_CONSUMER_ACTIONS, NUM_PRODUCER_ACTIONS, NUM_CHANNELS,
          PRODUCER_ACTIONS_PER_CHANNEL, CONSUMER_ACTIONS_PER_CHANNEL]
         omega)

/-- Witness for C10_macro_roundtrip at channel 3. -/
theorem C10_macro_roundtrip_witness :
    processEvent (fun _ => ChannelType.multi) (actionConsumerServoOff 3) =
      some (3, 0, ChannelType.multi) ∧
    processEvent (fun _ => ChannelType.multi) (actionConsumerMultiTo4 3) =
      some (3, 3, ChannelType.multi) :=
  ⟨(C10_macro_roundtrip (fun _ => ChannelType.multi) 3 (by decide)).1,
   (C10_macro_roundtrip (fun _ => ChannelType.multi) 3 (by decide)).2.2.2.2.2.2.2.2.2.2.1⟩

/-! ## Debounce engine (inputs.c) -/

/-- Per-channel input configuration (`nodeVarTable.moduleNVs.io[i].nv_io.nv_input`):
`input_on_delay`, `input_off_delay`, `input_inverted`, `input_enable_off`. -/
structure InputNv where
  input_on_delay : Nat
  input_off_delay : Nat
  input_inverted : Bool
  input_enable_off : Bool
deriving DecidableEq, Repr

/-- Per-channel debounce state (inputs.c): `inputState[io]` (the currently
reported level) and `delayCount[io]` (a BYTE counting scan cycles). -/
structure InputDebounce where
  inputState : Bool
  delayCount : Nat
deriving DecidableEq, Repr

/-- A produced (outbound) event: the action identifier and the on/off flag
passed to `cbusSendEvent` / `sendProducedEvent`. -/
structure ProducedEv where
  action : Nat
  onFlag : Bool
deriving DecidableEq, Repr

/-- One channel's slice of one `inputScan()` call (inputs.c lines 53-85),
for a channel whose type is `TYPE_INPUT`:
  input = readInput(io);
  if (input != inputState[io]) {
    change = (inputState[io] && delayCount[io]==on_delay) ||
             (!inputState[io] && delayCount[io]==off_delay);
    if (change) { delayCount[io]=0; inputState[io]=input;
                  if (inverted) input = !input;
                  if (input) send OFF2ON(io) TRUE
                  else if (enable_off) send ON2OFF(io) FALSE; }
    delayCount[io]++;            // note: runs after a commit as well
  } else delayCount[io] = 0;
Returns the updated state and the event emitted during this scan, if any. -/
def inputScanStep (ch : Nat) (nv : InputNv) (st : InputDebounce) (raw : Bool) :
    InputDebounce × Option ProducedEv :=
  if raw ≠ st.inputState then
    let change :=
      (st.inputState ∧ st.delayCount = nv.input_on_delay) ∨
      (¬ st.inputState ∧ st.delayCount = nv.input_off_delay)
    if change then
      let value := if nv.input_inverted then ! raw else raw
      let ev : Option ProducedEv :=
        if value then some ⟨actionProducerInputOff2On ch, true⟩
        else if nv.input_enable_off then some ⟨actionProducerInputOn2Off ch, false⟩
        else none
      (⟨raw, (0 + 1) % 256⟩, ev)
    else
      (⟨st.inputState, (st.delayCount + 1) % 256⟩, none)
  else
    (⟨st.inputState, 0⟩, none)

/-- Iterate `inputScanStep` over a list of raw samples, collecting the state
after every sample and the event (if any) each sample produced. -/
def inputScanRun (ch : Nat) (nv : InputNv) :
    InputDebounce → List Bool → InputDebounce × List (Option ProducedEv)
  | st, [] => (st, [])
  | st, raw :: rest =>
    let a := inputScanStep ch nv st raw
    let b := inputScanRun ch nv a.1 rest
    (b.1, a.2 :: b.2)

/-- Claim C4 counterexample. The claim: for an Input channel with on-delay 3
and reported level initially 0 (off), raw samples [0,1,1,1] produce exactly
one off-to-on event, on the 4th sample. On the code this is false: with
on-delay 3 (off-delay also 3 here) no event at all is produced in those four
samples — the off→on direction is gated on `input_off_delay` (the condition
tests the reported level, not the raw one) and the commit only happens on the
sample where the counter has already reached the delay, i.e. on the
(delay+2)-th sample of this sequence. -/
theorem C4_debounce_cex :
    (inputScanRun 0 ⟨3, 3, false, false⟩ ⟨false, 0⟩ [false, true, true, true]).2 =
      [none, none, none, none] ∧
    (inputScanRun 0 ⟨3, 3, false, false⟩ ⟨false, 0⟩ [false, true, true, true]).1 =
      ⟨false, 3⟩ := by
  decide

/-- Claim C4 (amended): for an Input channel with off-delay 3 (the delay the
code applies to the off→on direction; on-delay immaterial, set to 3 here) and
reported level initially 0, the raw sequence [0,1,1,1,1] produces exactly one
off-to-on producer event, emitted on the 5th sample, no event on samples 1-4,
and leaves the reported level committed to 1 with the counter at 1. -/
theorem C4_debounce (ch : Nat) :
    (inputScanRun ch ⟨3, 3, false, false⟩ ⟨false, 0⟩ [false, true, true, true, true]).2 =
      [none, none, none, none, some ⟨actionProducerInputOff2On ch, true⟩] ∧
    (inputScanRun ch ⟨3, 3, false, false⟩ ⟨false, 0⟩ [false, true, true, true, true]).1 =
      ⟨true, 1⟩ := by
  exact ⟨rfl, rfl⟩

/-- Claim C5 counterexample. The claim: while raw disagrees with the reported
level, commit happens when the counter reaches the on-delay if raw is
asserted, and leaves the counter at 0 at the end of that scan cycle. Concrete
refutation: on-delay 2, off-delay 5, reported level off, counter 2, raw
asserted. The claim requires a commit (counter has reached the on-delay) with
reported level becoming 1 and counter 0; the code does not commit — it leaves
the reported level at 0 and the counter at 3. -/
theorem C5_commit_cex :
    (inputScanStep 0 ⟨2, 5, false, false⟩ ⟨false, 2⟩ true).1 = ⟨false, 3⟩ ∧
    ¬ ((inputScanStep 0 ⟨2, 5, false, false⟩ ⟨false, 2⟩ true).1.inputState = true ∧
       (inputScanStep 0 ⟨2, 5, false, false⟩ ⟨false, 2⟩ true).1.delayCount = 0) := by
  decide

/-- Claim C5 (amended): while the raw level disagrees with the reported
level, the debounce commit happens exactly when the counter equals the
off-delay if the raw level is asserted and the on-delay if it is deasserted
(the code selects the delay by the reported level, which is the negation of
the raw level while they disagree), and the commit sets the reported level to
the raw value and leaves the counter at 1 (reset to 0 and then incremented)
at the end of that scan cycle. -/
theorem C5_commit (ch : Nat) (nv : InputNv) (st : InputDebounce) (raw : Bool)
    (hne : raw ≠ st.inputState) :
    ((inputScanStep ch nv st raw).1.inputState = raw ↔
      st.delayCount = (if raw then nv.input_off_delay else nv.input_on_delay)) ∧
    ((inputScanStep ch nv st raw).1.inputState = raw →
      (inputScanStep ch nv st raw).1.delayCount = 1) := by
  have hst : st.inputState = ! raw := by
    cases raw <;> cases h : st.inputState <;> simp_all
  by_cases hchg :
      (st.inputState ∧ st.delayCount = nv.input_on_delay) ∨
      (¬ st.inputState ∧ st.delayCount = nv.input_off_delay)
  · simp only [inputScanStep, if_pos hne, if_pos hchg]
    constructor
    · simp only [true_iff]
      rcases hchg with ⟨h1, h2⟩ | ⟨h1, h2⟩ <;> cases raw <;> simp_all
    · intro _
      trivial
  · simp only [inputScanStep, if_pos hne, if_neg hchg]
    constructor
    · constructor
      · intro h
        exact absurd h.symm hne
      · intro h
        exfalso
        apply hchg
        cases raw <;> simp_all
    · intro h
      exact absurd h.symm hne

/-- Witness for C5_commit: off-delay 5, reported off, counter 5, raw asserted
— the code commits and leaves the counter at 1. -/
theorem C5_commit_witness :
    ((inputScanStep 0 ⟨2, 5, false, false⟩ ⟨false, 5⟩ true).1.inputState = true ↔
      (5 : Nat) = (if true then (5 : Nat) else 2)) ∧
    ((inputScanStep 0 ⟨2, 5, false, false⟩ ⟨false, 5⟩ true).1.inputState = true →
      (inputScanStep 0 ⟨2, 5, false, false⟩ ⟨false, 5⟩ true).1.delayCount = 1) :=
  C5_commit 0 ⟨2, 5, false, false⟩ ⟨false, 5⟩ true (by decide)

/-! ## Pin abstraction (inputs.c `readInput`, main.c `configs`) -/

/-- One row of the `Config configs[NUM_IO]` pin table (main.c): board pin
number, port letter, bit number within the port (fields per the
initializers `{18, 'C', 7}` and the uses `configs[io].port`,
`configs[io].no`). -/
structure PinCfg where
  pin : Nat
  port : Char
  no : Nat
deriving DecidableEq, Repr

/-- The shipped pin-configuration table (main.c lines 73-90). -/
def configsList : List PinCfg :=
  [⟨18, 'C', 7⟩, ⟨17, 'C', 6⟩, ⟨16, 'C', 5⟩, ⟨15, 'C', 4⟩,
   ⟨14, 'C', 3⟩, ⟨13, 'C', 2⟩, ⟨12, 'C', 1⟩, ⟨11, 'C', 0⟩,
   ⟨21, 'B', 0⟩, ⟨22, 'B', 1⟩, ⟨25, 'B', 4⟩, ⟨26, 'B', 5⟩,
   ⟨3, 'A', 1⟩, ⟨2, 'A', 0⟩, ⟨5, 'A', 3⟩, ⟨7, 'A', 5⟩]

/-- `configs[ch]` as a total function (out-of-table reads never occur in the
claims below). -/
def configs (ch : Nat) : PinCfg := configsList.getD ch ⟨0, ' ', 0⟩

/-- inputs.c `readInput(io)`:
  if (type == TYPE_INPUT) switch (configs[io].port) {
    case 'a': return TRISA & (1<<no);
    case 'b': return TRISB & (1<<no);
    case 'c': return TRISA & (1<<no);   // note: TRISA, as in the source
  }
  return FALSE;
The switch cases are the lowercase letters, exactly as in the source; the
nonzero BYTE result used as a BOOL is modelled as `≠ 0`. `typeOf` models the
`nodeVarTable.moduleNVs.io[io].type` read and `trisA`/`trisB` the TRIS
register contents (the device state). -/
def readInput (typeOf : Nat → ChannelType) (tbl : Nat → PinCfg)
    (trisA trisB : Nat) (ch : Nat) : Bool :=
  if typeOf ch = ChannelType.input then
    if (tbl ch).port = 'a' then decide (Nat.land trisA (Nat.shiftLeft 1 (tbl ch).no) ≠ 0)
    else if (tbl ch).port = 'b' then decide (Nat.land trisB (Nat.shiftLeft 1 (tbl ch).no) ≠ 0)
    else if (tbl ch).port = 'c' then decide (Nat.land trisA (Nat.shiftLeft 1 (tbl ch).no) ≠ 0)
    else false
  else false

/-- Claim C9: `readInput` returns FALSE for every channel whose type is not
Input (regardless of the pin table), and with the shipped pin table — whose
port letters are the uppercase 'A', 'B', 'C', matching none of the lowercase
switch cases — it returns FALSE for every channel and every device state, so
the debounce engine never observes an asserted raw level. -/
theorem C9_readInput_false (typeOf : Nat → ChannelType) (tbl : Nat → PinCfg)
    (trisA trisB : Nat) (ch : Nat) (hch : ch < 16) :
    readInput typeOf configs trisA trisB ch = false ∧
    (typeOf ch ≠ ChannelType.input → readInput typeOf tbl trisA trisB ch = false) := by
  constructor
  · by_cases htype : typeOf ch = ChannelType.input
    · interval_cases ch <;>
        simp [readInput, htype, configs, configsList]
    · simp [readInput, htype]
  · intro htype
    simp [readInput, htype]

/-- Witness for C9_readInput_false at channel 5, all TRIS bits set, all
channels configured as Input. -/
theorem C9_readInput_false_witness :
    readInput (fun _ => ChannelType.input) configs 255 255 5 = false ∧
    ((fun _ => ChannelType.input) 5 ≠ ChannelType.input →
      readInput (fun _ => ChannelType.input) configs 255 255 5 = false) :=
  C9_readInput_false (fun _ => ChannelType.input) configs 255 255 5 (by decide)

/-! ## Motion engine (servo.c) -/

/-- servo.c `enum ServoState { OFF, STOPPED, MOVING }`. -/
inductive ServoSt
  | off
  | stopped
  | moving
deriving DecidableEq, Repr

/-- servo.c `#define EVENT_FLAG_ON 1`. -/
def EVENT_FLAG_ON : Nat := 1

/-- servo.c `#define EVENT_FLAG_OFF 2`. -/
def EVENT_FLAG_OFF : Nat := 2

/-- servo.c `#define EVENT_FLAG_MID 4`. -/
def EVENT_FLAG_MID : Nat := 4

/-- Per-channel servo NVs (`nodeVarTable.moduleNVs.io[i].nv_io.nv_servo`):
start/end positions and the two speeds (se = start→end, es = end→start). -/
structure ServoNv where
  servo_start_pos : Nat
  servo_end_pos : Nat
  servo_se_speed : Nat
  servo_es_speed : Nat
deriving DecidableEq, Repr

/-- The per-channel configuration view read by servo.c: the channel type
(`nodeVarTable.moduleNVs.io[i].type`) and the servo NVs. -/
structure ChannelNv where
  type : ChannelType
  servoNv : ServoNv
deriving DecidableEq, Repr

/-- The parallel per-channel arrays owned by servo.c
(`servoState`, `currentPos`, `targetPos`, `speed`, `eventFlags`,
`ticksWhenStopped`), modelled as total functions over the index. -/
structure ServoArrays where
  servoState : Nat → ServoSt
  currentPos : Nat → Nat
  targetPos : Nat → Nat
  speed : Nat → Nat
  eventFlags : Nat → Nat
  ticksWhenStopped : Nat → Nat

/-- servo.c `initServos()` data part (the timer-register setup lines are
hardware configuration and carry no claim-relevant data):
  for (io = 0; io < NUM_IO; io++) {
    servoState[io] = OFF;
    currentPos[io] = targetPos[io] = ee_read(EE_OP_STATE - io);
    speed[io] = 0;
  }
`eeOpState` is the (abstract) numeric value of `EE_OP_STATE` and `ee` the
EEPROM content: note the address read for channel io is EE_OP_STATE - io.
The file-scope arrays `eventFlags` / `ticksWhenStopped` have static storage
duration and so start zeroed. -/
def initServos (eeOpState : Int) (ee : Int → Nat) : ServoArrays :=
  { servoState := fun _ => ServoSt.off
  , currentPos := fun ch => if ch < NUM_CHANNELS then ee (eeOpState - (ch : Int)) else 0
  , targetPos := fun ch => if ch < NUM_CHANNELS then ee (eeOpState - (ch : Int)) else 0
  , speed := fun _ => 0
  , eventFlags := fun _ => 0
  , ticksWhenStopped := fun _ => 0 }

/-- main.c `configIO(i)`: for a channel whose port letter is 'A', 'B' or 'C'
(every row of the shipped table) and whose type is not `TYPE_INPUT`, the
remembered output value `ee_read(EE_OP_STATE + i)` is passed to
`setOutput`; note the address here is EE_OP_STATE + i, with a plus.
Returns the value passed to `setOutput`, or `none` when `setOutput` is not
called (Input channels, out-of-range index, unknown port letter). -/
def configIOOutputValue (typeOf : Nat → ChannelType) (eeOpState : Int)
    (ee : Int → Nat) (ch : Nat) : Option Nat :=
  if NUM_CHANNELS ≤ ch then none
  else if (configs ch).port = 'A' ∨ (configs ch).port = 'B' ∨ (configs ch).port = 'C' then
    if typeOf ch = ChannelType.input then none
    else some (ee (eeOpState + (ch : Int)))
  else none

/-- servo.c `startServos()` (runs every ~5 ms):
  block++; if (block > 3) block = 0;
  then, for each k in 0..3: if the type of channel block*4+k is TYPE_SERVO
  and its servoState is not OFF, arm timer k+1 for that channel.
Returns the new block value and the list of channels armed (in timer order). -/
def startServos (nv : Nat → ChannelNv) (st : ServoArrays) (block : Nat) :
    Nat × List Nat :=
  let b0 := (block + 1) % 256
  let b := if b0 > 3 then 0 else b0
  let armed := [b * 4, b * 4 + 1, b * 4 + 2, b * 4 + 3].filter
    (fun ch => decide ((nv ch).type = ChannelType.servo ∧ st.servoState ch ≠ ServoSt.off))
  (b, armed)

/-- servo.c `setServoOutput(io, action)`:
  case ACTION_IO_CONSUMER_1: targetPos = servo_start_pos; speed = servo_es_speed;
    eventFlags = EVENT_FLAG_OFF & EVENT_FLAG_MID; state = MOVING;
  case ACTION_IO_CONSUMER_2: targetPos = servo_end_pos; speed = servo_se_speed;
    eventFlags = EVENT_FLAG_ON & EVENT_FLAG_MID; state = MOVING;
The `&` operators are transliterated as they are in the source (`Nat.land`). -/
def setServoOutput (nv : Nat → ChannelNv) (st : ServoArrays) (ch : Nat)
    (action : Nat) : ServoArrays :=
  if action = ACTION_CONSUMER_1 then
    { st with targetPos := Function.update st.targetPos ch (nv ch).servoNv.servo_start_pos
            , speed := Function.update st.speed ch (nv ch).servoNv.servo_es_speed
            , eventFlags := Function.update st.eventFlags ch (Nat.land EVENT_FLAG_OFF EVENT_FLAG_MID)
            , servoState := Function.update st.servoState ch ServoSt.moving }
  else if action = ACTION_CONSUMER_2 then
    { st with targetPos := Function.update st.targetPos ch (nv ch).servoNv.servo_end_pos
            , speed := Function.update st.speed ch (nv ch).servoNv.servo_se_speed
            , eventFlags := Function.update st.eventFlags ch (Nat.land EVENT_FLAG_ON EVENT_FLAG_MID)
            , servoState := Function.update st.servoState ch ServoSt.moving }
  else st

/-- One iteration of the body of servo.c `pollServos()` for loop index `ch`
(lines 202-252), transliterated statement by statement.  In particular the
downward-motion clamp reads, exactly as in the source,
`currentPos[io = targetPos[io]]` — an assignment to the loop index `io`
instead of a clamp of `currentPos` — after which the remainder of the body
(midpoint test, target-reached test) runs with the reassigned index.
Returns the updated arrays, the events produced, and the final value of the
loop index `io`. `oneSec` is `ONE_SECOND` of TickTime.h, `now` the current
tick count (`tickGet()`), with `tickTimeSince(t) = now - t`. -/
def pollChannel (nv : Nat → ChannelNv) (oneSec now : Nat) (st : ServoArrays)
    (ch : Nat) : ServoArrays × List ProducedEv × Nat :=
  let midway := ((nv ch).servoNv.servo_end_pos + (nv ch).servoNv.servo_start_pos) / 2
  if (nv ch).type = ChannelType.servo then
    match st.servoState ch with
    | ServoSt.moving =>
      let step : ServoArrays × List ProducedEv × Nat :=
        if st.targetPos ch > st.currentPos ch then
          let beforeMidway := st.currentPos ch < midway
          let p0 := byteAdd (st.currentPos ch) (st.speed ch)
          let p1 := if p0 > st.targetPos ch then st.targetPos ch else p0
          let st1 : ServoArrays := { st with currentPos := Function.update st.currentPos ch p1 }
          let evs :=
            if Nat.land (st1.eventFlags ch) EVENT_FLAG_MID ≠ 0 ∧ midway ≤ st1.currentPos ch ∧ beforeMidway
            then [⟨actionProducerServoMid ch, decide beforeMidway⟩] else []
          (st1, evs, ch)
        else if st.targetPos ch < st.currentPos ch then
          let beforeMidway := st.currentPos ch > midway
          let p0 := bSub (st.currentPos ch) (st.speed ch)
          let st1 : ServoArrays := { st with currentPos := Function.update st.currentPos ch p0 }
          let ch1 := if st1.currentPos ch < st1.targetPos ch then st1.targetPos ch else ch
          let evs :=
            if Nat.land (st1.eventFlags ch1) EVENT_FLAG_MID ≠ 0 ∧ st1.currentPos ch1 ≤ midway ∧ beforeMidway
            then [⟨actionProducerServoMid ch1, true⟩] else []
          (st1, evs, ch1)
        else (st, [], ch)
      match step with
      | (st1, evs1, ch1) =>
        if st1.targetPos ch1 = st1.currentPos ch1 then
          ({ st1 with servoState := Function.update st1.servoState ch1 ServoSt.stopped
                    , ticksWhenStopped := Function.update st1.ticksWhenStopped ch1 now },
           evs1 ++ [⟨actionProducerServoOn ch1, decide (Nat.land (st1.eventFlags ch1) EVENT_FLAG_ON ≠ 0)⟩],
           ch1)
        else (st1, evs1, ch1)
    | ServoSt.stopped =>
      (if now - st.ticksWhenStopped ch > oneSec
       then { st with servoState := Function.update st.servoState ch ServoSt.off }
       else st, [], ch)
    | ServoSt.off => (st, [], ch)
  else (st, [], ch)

/-- The `for` loop of `pollServos()`: run `pollChannel`, then `io++` (BYTE
increment of the possibly reassigned index) while `io < NUM_IO`. The fuel
argument dominates the iteration count; every concrete run below finishes
long before it is exhausted. -/
def pollLoop (nv : Nat → ChannelNv) (oneSec now : Nat) :
    Nat → ServoArrays → Nat → ServoArrays × List ProducedEv
  | 0, st, _ => (st, [])
  | fuel + 1, st, ch =>
    if ch < NUM_CHANNELS then
      match pollChannel nv oneSec now st ch with
      | (st1, evs, ch1) =>
        match pollLoop nv oneSec now fuel st1 ((ch1 + 1) % 256) with
        | (st2, evs2) => (st2, evs ++ evs2)
    else (st, [])

/-- servo.c `pollServos()` (runs every ~20 ms). The C loop index is declared
without an initializer (`for (unsigned char io; io < NUM_IO; io++)`), which
is undefined behavior in C; the model takes the favourable reading io = 0. -/
def pollServos (nv : Nat → ChannelNv) (oneSec now : Nat) (st : ServoArrays) :
    ServoArrays × List ProducedEv :=
  pollLoop nv oneSec now 64 st 0

/-- Configuration for the C1 and C7 failing inputs: channel 0 is a Servo with
start 0 / end 100 (midway 50), the rest are Inputs. -/
def nvC1 : Nat → ChannelNv := fun ch =>
  if ch = 0 then ⟨ChannelType.servo, ⟨0, 100, 0, 0⟩⟩
  else ⟨ChannelType.input, ⟨0, 0, 0, 0⟩⟩

/-- C1 failing input (downward leg): channel 0 Moving with currentPos 10,
targetPos 5, speed 8. -/
def stC1down : ServoArrays :=
  { servoState := fun ch => if ch = 0 then ServoSt.moving else ServoSt.off
  , currentPos := fun ch => if ch = 0 then 10 else 0
  , targetPos := fun ch => if ch = 0 then 5 else 0
  , speed := fun ch => if ch = 0 then 8 else 0
  , eventFlags := fun _ => 0
  , ticksWhenStopped := fun _ => 0 }

/-- C1 failing input (upward wrap leg): channel 0 Moving with currentPos 250,
targetPos 255, speed 10. -/
def stC1up : ServoArrays :=
  { servoState := fun ch => if ch = 0 then ServoSt.moving else ServoSt.off
  , currentPos := fun ch => if ch = 0 then 250 else 0
  , targetPos := fun ch => if ch = 0 then 255 else 0
  , speed := fun ch => if ch = 0 then 10 else 0
  , eventFlags := fun _ => 0
  , ticksWhenStopped := fun _ => 0 }

/-- Claim C1 evaluated at its failing inputs (code bug). The claim: a motion
tick moves `currentPos` toward `targetPos` by `speed` and clamps it at
`targetPos`, never passing it in either direction, including when the 8-bit
step wraps. The code violates both directions:
* downward (10 → target 5 at speed 8): the clamp statement is
  `currentPos[io = targetPos[io]]`, which assigns the loop index instead of
  clamping, so `currentPos` ends at 2 — past the target — and the channel
  stays Moving;
* upward (250 → target 255 at speed 10): the BYTE addition wraps to 4 and the
  `> targetPos` clamp test fails, so `currentPos` ends at 4, having passed
  the target through the wraparound, still Moving. -/
theorem C1_no_clamp :
    ((pollServos nvC1 20000 1000 stC1down).1.currentPos 0 = 2 ∧
     (pollServos nvC1 20000 1000 stC1down).1.servoState 0 = ServoSt.moving) ∧
    ((pollServos nvC1 20000 1000 stC1up).1.currentPos 0 = 4 ∧
     (pollServos nvC1 20000 1000 stC1up).1.servoState 0 = ServoSt.moving) := by
  decide

/-- Claim C2 evaluated on the code (code bug). `setServoOutput` does set
`targetPos` to the configured end (resp. start) position, `speed` to the
configured se- (resp. es-) speed and the state to Moving, but the flag
assignments read `EVENT_FLAG_ON & EVENT_FLAG_MID` and
`EVENT_FLAG_OFF & EVENT_FLAG_MID` — bitwise AND of disjoint one-bit masks —
so `eventFlags` is 0 after either command: neither the on/off event flag nor
the mid flag is set, contradicting the claim. -/
theorem C2_flags_cleared (nv : Nat → ChannelNv) (st : ServoArrays) (ch : Nat) :
    ((setServoOutput nv st ch ACTION_CONSUMER_2).eventFlags ch = 0 ∧
     (setServoOutput nv st ch ACTION_CONSUMER_2).targetPos ch = (nv ch).servoNv.servo_end_pos ∧
     (setServoOutput nv st ch ACTION_CONSUMER_2).speed ch = (nv ch).servoNv.servo_se_speed ∧
     (setServoOutput nv st ch ACTION_CONSUMER_2).servoState ch = ServoSt.moving) ∧
    ((setServoOutput nv st ch ACTION_CONSUMER_1).eventFlags ch = 0 ∧
     (setServoOutput nv st ch ACTION_CONSUMER_1).targetPos ch = (nv ch).servoNv.servo_start_pos ∧
     (setServoOutput nv st ch ACTION_CONSUMER_1).speed ch = (nv ch).servoNv.servo_es_speed ∧
     (setServoOutput nv st ch ACTION_CONSUMER_1).servoState ch = ServoSt.moving) ∧
    Nat.land EVENT_FLAG_ON EVENT_FLAG_MID = 0 ∧
    Nat.land EVENT_FLAG_OFF EVENT_FLAG_MID = 0 := by
  refine ⟨⟨?_, ?_, ?_, ?_⟩, ⟨?_, ?_, ?_, ?_⟩, by decide, by decide⟩ <;>
    simp [setServoOutput, ACTION_CONSUMER_1, ACTION_CONSUMER_2,
      EVENT_FLAG_ON, EVENT_FLAG_OFF, EVENT_FLAG_MID] <;>
    decide

/-- Configuration for the C6 counterexample: channel 0 is a Multi channel in
Moving state; the new active block after a tick from block 3 is block 0. -/
def nvC6 : Nat → ChannelNv := fun ch =>
  if ch = 0 then ⟨ChannelType.multi, ⟨0, 0, 0, 0⟩⟩
  else ⟨ChannelType.input, ⟨0, 0, 0, 0⟩⟩

/-- Servo-array state for the C6 counterexample. -/
def stC6 : ServoArrays :=
  { servoState := fun ch => if ch = 0 then ServoSt.moving else ServoSt.off
  , currentPos := fun _ => 0
  , targetPos := fun _ => 0
  , speed := fun _ => 0
  , eventFlags := fun _ => 0
  , ticksWhenStopped := fun _ => 0 }

/-- Claim C6 counterexample. The claim: a timer is armed for a channel in the
newly active block iff its configured type is a motion type (Servo, Bounce or
Multi) and its motion state is not Off. Channel 0 is a Multi channel in
Moving state and lies in the newly active block 0, yet `startServos` arms no
timer for it — the code tests `type == TYPE_SERVO` only. -/
theorem C6_arming_cex :
    isMotionType (nvC6 0).type = true ∧
    stC6.servoState 0 ≠ ServoSt.off ∧
    (startServos nvC6 stC6 3).1 = 0 ∧
    (startServos nvC6 stC6 3).2 = [] ∧
    ¬ (0 ∈ (startServos nvC6 stC6 3).2 ↔
        (isMotionType (nvC6 0).type = true ∧ stC6.servoState 0 ≠ ServoSt.off)) := by
  decide

/-- Claim C6 (amended): on every scheduling tick from a block index in 0..3,
the active block index advances by exactly one modulo 4 (hence stays in
0..3, and over any 4 consecutive ticks each block is active exactly once),
and a timer is armed for a channel in the newly active block iff that
channel's configured type is Servo (not Bounce or Multi) and its motion
state is not Off. -/
theorem C6_block_advance (nv : Nat → ChannelNv) (st : ServoArrays) (block : Nat)
    (hb : block ≤ 3) :
    (startServos nv st block).1 = (block + 1) % 4 ∧
    (startServos nv st block).1 ≤ 3 ∧
    (∀ ch, ch ∈ (startServos nv st block).2 ↔
      ((∃ k, k < 4 ∧ ch = ((block + 1) % 4) * 4 + k) ∧
       (nv ch).type = ChannelType.servo ∧ st.servoState ch ≠ ServoSt.off)) := by
  have hbeq : (if ((block + 1) % 256) > 3 then 0 else ((block + 1) % 256)) = (block + 1) % 4 := by
    interval_cases block <;> rfl
  refine ⟨?_, ?_, ?_⟩
  · simp only [startServos]
    exact hbeq
  · simp only [startServos]
    rw [hbeq]
    omega
  · intro ch
    simp only [startServos, hbeq, List.mem_filter, List.mem_cons,
      List.not_mem_nil, or_false, decide_eq_true_eq]
    constructor
    · rintro ⟨hmem, hP⟩
      refine ⟨?_, hP.1, hP.2⟩
      rcases hmem with h | h | h | h
      · exact ⟨0, by omega, by omega⟩
      · exact ⟨1, by omega, by omega⟩
      · exact ⟨2, by omega, by omega⟩
      · exact ⟨3, by omega, by omega⟩
    · rintro ⟨⟨k, hk, hch⟩, hP1, hP2⟩
      refine ⟨?_, hP1, hP2⟩
      interval_cases k
      · exact Or.inl (by omega)
      · exact Or.inr (Or.inl (by omega))
      · exact Or.inr (Or.inr (Or.inl (by omega)))
      · exact Or.inr (Or.inr (Or.inr (by omega)))

/-- Witness for C6_block_advance: block 1 with channel 8 (in new block 2) a
Servo in Moving state. -/
theorem C6_block_advance_witness :
    (startServos nvC1 stC6 1).1 = (1 + 1) % 4 ∧
    (startServos nvC1 stC6 1).1 ≤ 3 ∧
    (∀ ch, ch ∈ (startServos nvC1 stC6 1).2 ↔
      ((∃ k, k < 4 ∧ ch = ((1 + 1) % 4) * 4 + k) ∧
       (nvC1 ch).type = ChannelType.servo ∧ stC6.servoState ch ≠ ServoSt.off)) :=
  C6_block_advance nvC1 stC6 1 (by decide)

/-- Configuration for the C7 failing input: channel 2 is a Servo with
start 4 / end 100, so the configured midpoint is (100+4)/2 = 52. -/
def nvC7 : Nat → ChannelNv := fun ch =>
  if ch = 2 then ⟨ChannelType.servo, ⟨4, 100, 0, 0⟩⟩
  else ⟨ChannelType.input, ⟨0, 0, 0, 0⟩⟩

/-- C7 failing input: channel 2 Moving downward across the midpoint, with the
mid event flag enabled (eventFlags = EVENT_FLAG_ON + EVENT_FLAG_MID = 5):
currentPos 55 (above midway 52), targetPos 50 (below it), speed 10. -/
def stC7 : ServoArrays :=
  { servoState := fun ch => if ch = 2 then ServoSt.moving else ServoSt.off
  , currentPos := fun ch => if ch = 2 then 55 else 0
  , targetPos := fun ch => if ch = 2 then 50 else 0
  , speed := fun ch => if ch = 2 then 10 else 0
  , eventFlags := fun ch => if ch = 2 then 5 else 0
  , ticksWhenStopped := fun _ => 0 }

/-- Claim C7 evaluated at its failing input (code bug). The claim: with the
mid flag enabled, the midpoint event is emitted on the tick whose step
carries `currentPos` across the configured midpoint. Channel 2's step goes
from 55 (above midway 52) to 45 (below it) on this tick, with the mid flag
set — yet no midpoint event for channel 2 is produced. The step undershoots
the target (45 < 50), so the mangled clamp `currentPos[io = targetPos[io]]`
reassigns the loop index to 50 before the midpoint test runs; the tick
instead emits a reached-target event for out-of-range index 50 (whose
`targetPos`/`currentPos` memory compares equal), and channels 3..15 are
skipped for the rest of the tick. -/
theorem C7_mid_event_lost :
    (stC7.currentPos 2 > 52 ∧ (pollServos nvC7 20000 1000 stC7).1.currentPos 2 = 45) ∧
    Nat.land (stC7.eventFlags 2) EVENT_FLAG_MID ≠ 0 ∧
    (⟨actionProducerServoMid 2, true⟩ : ProducedEv) ∉ (pollServos nvC7 20000 1000 stC7).2 ∧
    (⟨actionProducerServoMid 2, false⟩ : ProducedEv) ∉ (pollServos nvC7 20000 1000 stC7).2 ∧
    (pollServos nvC7 20000 1000 stC7).2 = [⟨actionProducerServoOn 50, false⟩] := by
  decide

/-- EEPROM contents for the C8 failing input: address base-1 holds 7,
every other address (in particular base+1) holds 9. -/
def eeC8 : Int → Nat := fun a => if a = -1 then 7 else 9

/-- Claim C8 evaluated at its failing input (code bug). `initServos` does set
every channel's state to Off, speed to 0 and currentPos = targetPos to a
persisted value — but it reads EEPROM address `EE_OP_STATE - io`, while the
output-configuration path (`configIO`, main.c) reads the remembered value of
the same channel from `EE_OP_STATE + i`. For channel 1 (with EE_OP_STATE
abstracted to 0): initServos restores 7 (address -1) while configIO reads 9
(address +1) — not the same per-channel persisted slot, contradicting the
claim for every channel except 0. -/
theorem C8_persist_slot_mismatch :
    (initServos 0 eeC8).servoState 1 = ServoSt.off ∧
    (initServos 0 eeC8).speed 1 = 0 ∧
    (initServos 0 eeC8).currentPos 1 = 7 ∧
    (initServos 0 eeC8).targetPos 1 = 7 ∧
    configIOOutputValue (fun _ => ChannelType.servo) 0 eeC8 1 = some 9 := by
  decide

end Canmio
